import Mathlib

/-!
# Verification of the gbajs3 Cloudflare Workers authentication subsystem

Shallow embedding of `workers-api/src/utils.ts`, `workers-api/src/routes/auth.ts`
and `workers-api/src/routes/tokens.ts`.

Modelling conventions:

* External WebCrypto PBKDF2 (`crypto.subtle.deriveBits` with fixed parameters
  `iterations = 100000`, `hash = SHA-256`, 256 output bits) is a parameter
  `pbkdf2 : String → List Nat → List Nat` shared by `hashPassword` and
  `verifyPassword`, exactly as both call sites pass the same fixed parameters.
* `btoa` / `atob` are embedded concretely (standard base64 encoding and the
  WHATWG forgiving-base64 decode used by Workers); `atob` throwing
  `InvalidCharacterError` is modelled by returning `none`, and `verifyPassword`
  consequently returns `Except Unit Bool` where `.error ()` models an exception
  escaping to the caller.
* JWTs signed by the external `jose` library are embedded symbolically: a signed
  token records its claim set together with the key it was signed with, and
  `jose.jwtVerify` succeeds exactly when the presented key equals the signing
  key and the `exp` claim lies in the future.  Wire-level refresh tokens also
  cover the malformed shapes the refresh route distinguishes before
  verification (wrong number of `.`-separated parts, payload that is not
  decodable JSON, payload without `sub`).
* The D1 database is a list of user rows; the SQL statements of the three
  helpers in `utils.ts` are embedded as list operations.  Route handlers take
  the database state at each await point, so a write that reports zero affected
  rows (e.g. a concurrently deleted row) is representable.
-/

namespace Gbajs3

/-- The base64 alphabet, indexed by sextet value. -/
def b64Chars : List Char :=
  ['A', 'B', 'C', 'D', 'E', 'F', 'G', 'H', 'I', 'J', 'K', 'L', 'M',
   'N', 'O', 'P', 'Q', 'R', 'S', 'T', 'U', 'V', 'W', 'X', 'Y', 'Z',
   'a', 'b', 'c', 'd', 'e', 'f', 'g', 'h', 'i', 'j', 'k', 'l', 'm',
   'n', 'o', 'p', 'q', 'r', 's', 't', 'u', 'v', 'w', 'x', 'y', 'z',
   '0', '1', '2', '3', '4', '5', '6', '7', '8', '9', '+', '/']

def encodeSextet (n : Nat) : Char := b64Chars.getD n 'A'

def decodeSextet (c : Char) : Option Nat := b64Chars.findIdx? (fun x => x == c)

/-- `btoa` on a byte sequence: standard base64 with `=` padding. -/
def b64EncodeB : List Nat → List Char
  | [] => []
  | [a] => [encodeSextet (a / 4), encodeSextet (a % 4 * 16), '=', '=']
  | [a, b] => [encodeSextet (a / 4), encodeSextet (a % 4 * 16 + b / 16),
               encodeSextet (b % 16 * 4), '=']
  | a :: b :: c :: rest =>
    encodeSextet (a / 4) :: encodeSextet (a % 4 * 16 + b / 16) ::
    encodeSextet (b % 16 * 4 + c / 64) :: encodeSextet (c % 64) :: b64EncodeB rest

/-- Decode a padding-free base64 char sequence (trailing bits discarded,
as forgiving-base64 does); `none` on any character outside the alphabet or
on a final group of one character. -/
def b64DecodeB : List Char → Option (List Nat)
  | [] => some []
  | [_] => none
  | [c1, c2] => do
    let s1 ← decodeSextet c1
    let s2 ← decodeSextet c2
    some [s1 * 4 + s2 / 16]
  | [c1, c2, c3] => do
    let s1 ← decodeSextet c1
    let s2 ← decodeSextet c2
    let s3 ← decodeSextet c3
    some [s1 * 4 + s2 / 16, s2 % 16 * 16 + s3 / 4]
  | c1 :: c2 :: c3 :: c4 :: rest => do
    let s1 ← decodeSextet c1
    let s2 ← decodeSextet c2
    let s3 ← decodeSextet c3
    let s4 ← decodeSextet c4
    let rs ← b64DecodeB rest
    some ((s1 * 4 + s2 / 16) :: (s2 % 16 * 16 + s3 / 4) :: (s3 % 4 * 64 + s4) :: rs)

def isAsciiWS (c : Char) : Bool :=
  c == ' ' || c == '\t' || c == '\n' || c == '\r' || c == '\x0C'

/-- Remove at most two trailing `=` characters. -/
def dropTrailingEq2 (l : List Char) : List Char :=
  match l.reverse with
  | c1 :: c2 :: r =>
    if c1 = '=' then
      if c2 = '=' then r.reverse else (c2 :: r).reverse
    else l
  | [c1] => if c1 = '=' then [] else l
  | [] => l

/-- `atob` (WHATWG forgiving-base64 decode): strip ASCII whitespace; when the
length is a multiple of four, strip up to two trailing `=`; then decode,
failing on any remaining non-alphabet character or a leftover group of one. -/
def atobL (l : List Char) : Option (List Nat) :=
  let d0 := l.filter (fun c => !(isAsciiWS c))
  let d1 := if d0.length % 4 = 0 then dropTrailingEq2 d0 else d0
  b64DecodeB d1

def btoaB (l : List Nat) : String := String.mk (b64EncodeB l)

/-- JavaScript `String.prototype.split` with a single-character separator. -/
def splitOnChar (sep : Char) : List Char → List (List Char)
  | [] => [[]]
  | c :: rest =>
    if c == sep then [] :: splitOnChar sep rest
    else
      match splitOnChar sep rest with
      | h :: t => (c :: h) :: t
      | [] => [[c]]

/-- The constant-time comparison loop of `verifyPassword`:
`result |= hashArray[i] ^ expectedHash[i]`. -/
def xorFold (a b : List Nat) : Nat :=
  (List.zip a b).foldl (fun acc p => acc ||| (p.1 ^^^ p.2)) 0

/-- `storedHash.startsWith('$2')`. -/
def startsBcrypt : List Char → Bool
  | c1 :: c2 :: _ => c1 == '$' && c2 == '2'
  | _ => false

/-- `hashPassword` (utils.ts): derive a digest from the password and a random
16-byte salt, and store `saltB64 ++ ":" ++ hashB64`.  The salt (produced by
`crypto.getRandomValues`) is passed in explicitly. -/
def hashPassword (pbkdf2 : String → List Nat → List Nat) (password : String)
    (salt : List Nat) : String :=
  btoaB salt ++ ":" ++ btoaB (pbkdf2 password salt)

/-- `verifyPassword` (utils.ts).  `.error ()` models an exception escaping the
function (the `atob` calls are the only throwing operations and are not
guarded by any try/catch inside `verifyPassword`). -/
def verifyPassword (pbkdf2 : String → List Nat → List Nat)
    (password storedHash : String) : Except Unit Bool :=
  if startsBcrypt storedHash.data then .ok false
  else
    let parts := splitOnChar ':' storedHash.data
    match parts[0]?, parts[1]? with
    | some saltB64, some hashB64 =>
      if saltB64.isEmpty || hashB64.isEmpty then .ok false
      else
        match atobL saltB64, atobL hashB64 with
        | some salt, some expectedHash =>
          let hashArr := pbkdf2 password salt
          if hashArr.length ≠ expectedHash.length then .ok false
          else .ok (xorFold hashArr expectedHash == 0)
        | _, _ => .error ()
    | _, _ => .ok false

example : atobL "!!".data = none := by decide

example : atobL "AA==".data = some [0] := by decide

example : verifyPassword (fun _ _ => []) "p" "!!:!!" = .error () := rfl

example : verifyPassword (fun _ _ => [0]) "p" "AA==:AA==" = .ok true := rfl

example : b64EncodeB [0, 1, 2, 250] = "AAEC+g==".data := by decide

example : atobL (b64EncodeB [0, 1, 2, 250]) = some [0, 1, 2, 250] := by decide

example (a b : Nat) (_ : a < 256) (hb : b < 256) :
    a / 4 * 4 + (a % 4 * 16 + b / 16) / 16 = a := by omega

/-- Cloudflare environment bindings (types.ts `Env`); only the field the
authentication subsystem reads is modelled. -/
structure Env where
  jwtSecret : Option String
deriving DecidableEq

/-- `getJwtSecret` (utils.ts): the configured `JWT_SECRET` if present,
otherwise a hardcoded fallback constant.  Signing keys are modelled as the
underlying strings; the injective `TextEncoder.encode` is absorbed into the
symbolic key. -/
def getJwtSecret (env : Env) : String :=
  match env.jwtSecret with
  | some s => s
  | none => "gbajs3-default-secret-change-in-production"

/-- Claim set of an access token (types.ts `AccessTokenPayload`). -/
structure AccessClaims where
  store : String
  exp : Nat
deriving DecidableEq

/-- A signed access JWT, symbolically: the claims together with the key the
token was signed with (HMAC binds the compact serialization to the key). -/
structure AccessJwt where
  claims : AccessClaims
  key : String
deriving DecidableEq

/-- `createAccessToken` (utils.ts): claims `{store, exp = now + 5*60}`,
signed with the global secret. -/
def createAccessToken (storageDir : String) (secret : String) (now : Nat) :
    AccessJwt :=
  ⟨⟨storageDir, now + 5 * 60⟩, secret⟩

/-- Claim set carried by a refresh token (types.ts `RefreshTokenPayload`);
`sub` is optional because an arbitrary wire token may lack it. -/
structure RefreshClaims where
  sub : Option String
  store : String
  exp : Nat
deriving DecidableEq

/-- A refresh token as received on the wire.  The refresh route distinguishes,
before any verification: a string without exactly three `.`-separated parts
(`malformedParts`), a middle part that does not decode to JSON
(`malformedJson`), and a decodable payload (`tok`), whose `sigKey` is the key
its signature is valid under (`none` for a signature valid under no key —
symbolically, signatures are unforgeable). -/
inductive RefreshWire
  | malformedParts
  | malformedJson
  | tok (sub : Option String) (store : String) (exp : Nat) (sigKey : Option String)
deriving DecidableEq

/-- `createRefreshToken` (utils.ts): claims `{sub = tokenId, store,
exp = now + 7*60*60}`, signed with the per-slot `tokenSlug`. -/
def createRefreshToken (tokenId : String) (storageDir : String)
    (tokenSlug : String) (now : Nat) : RefreshWire :=
  .tok (some tokenId) storageDir (now + 7 * 60 * 60) (some tokenSlug)

/-- `verifyRefreshToken` (utils.ts wrapping `jose.jwtVerify`): succeeds exactly
when the structure is well-formed, the signature is valid under `tokenSlug`,
and the `exp` claim is in the future; `none` otherwise. -/
def verifyRefreshToken (token : RefreshWire) (tokenSlug : String) (now : Nat) :
    Option RefreshClaims :=
  match token with
  | .tok sub store exp (some k) =>
    if k = tokenSlug ∧ now < exp then some ⟨sub, store, exp⟩ else none
  | _ => none

/-- One row of the D1 `users` table (schema.sql / types.ts `User`). -/
structure UserRow where
  id : Nat
  username : String
  pass_hash : String
  token_slug : Option String
  token_id : Option String
  storage_dir : String
deriving DecidableEq

abbrev DB := List UserRow

/-- `fetchUserByUsername` (utils.ts): `SELECT ... FROM users WHERE username = ?`
with `.first()`. -/
def fetchUserByUsername (db : DB) (username : String) : Option UserRow :=
  db.find? (fun u => u.username == username)

/-- `fetchTokenSlugByTokenId` (utils.ts):
`SELECT token_slug FROM users WHERE token_id = ?` with `.first()`, then
`result?.token_slug ?? null`. -/
def fetchTokenSlugByTokenId (db : DB) (tokenId : String) : Option String :=
  (db.find? (fun u => u.token_id == some tokenId)).bind (fun u => u.token_slug)

/-- `updateUserTokenFields` (utils.ts):
`UPDATE users SET token_id = ?, token_slug = ? WHERE id = ?`; the Bool is
`result.success && (result.meta.changes ?? 0) > 0`. -/
def updateUserTokenFields (db : DB) (userId : Nat) (tokenId tokenSlug : String) :
    Bool × DB :=
  (db.any (fun u => u.id == userId),
   db.map (fun u =>
     if u.id == userId then
       { u with token_id := some tokenId, token_slug := some tokenSlug }
     else u))

/-- Options accepted by `createCookie` (utils.ts). -/
structure CookieOptions where
  path : Option String
  maxAge : Option Int
  httpOnly : Bool
  secure : Bool
  sameSite : Option String
deriving DecidableEq

/-- JavaScript `Array.prototype.join(sep)`. -/
def joinParts (sep : String) : List String → String
  | [] => ""
  | [x] => x
  | x :: rest => x ++ sep ++ joinParts sep rest

/-- `createCookie` (utils.ts): `name=encodeURIComponent(value)` followed by the
attribute parts in source order, joined with `"; "`.  `encodeURIComponent` is
an external platform function, passed as a parameter. -/
def createCookie (encodeURIComponent : String → String) (name value : String)
    (options : CookieOptions) : String :=
  let parts := [name ++ "=" ++ encodeURIComponent value]
  let parts := parts ++ (match options.path with
    | some p => ["Path=" ++ p]
    | none => [])
  let parts := parts ++ (match options.maxAge with
    | some m => ["Max-Age=" ++ toString m]
    | none => [])
  let parts := parts ++ (if options.httpOnly then ["HttpOnly"] else [])
  let parts := parts ++ (if options.secure then ["Secure"] else [])
  let parts := parts ++ (match options.sameSite with
    | some s => ["SameSite=" ++ s]
    | none => [])
  joinParts "; " parts

/-- The JSON body of a route response: either `{ error: msg }` or a serialized
access token (`c.json(accessToken)`). -/
inductive Body
  | jsonError (msg : String)
  | jsonToken (token : AccessJwt)
deriving DecidableEq

/-- Status, body and optional `Set-Cookie` header of a response. -/
structure HttpResult where
  status : Nat
  body : Body
  setCookie : Option String
deriving DecidableEq

/-- Result of `c.req.json()` in the login route: the parse may throw
(`malformedJson`), or yield an object whose `username`/`password` properties
may each be absent. -/
inductive LoginBody
  | malformedJson
  | parsed (username password : Option String)
deriving DecidableEq

/-- JavaScript falsiness of a `string | undefined | null` value. -/
def falsyStr : Option String → Bool
  | none => true
  | some s => s == ""

/-- The app-level catch-all error handler (index.ts `app.onError`). -/
def onErrorResponse : HttpResult :=
  ⟨500, .jsonError "Internal Server Error", none⟩

/-- The `POST /api/account/login` handler (routes/auth.ts).  `dbFetch` and
`dbUpdate` are the database states observed at the two awaited store calls
(they coincide when no concurrent request interleaves).  `newTokenId` and
`newTokenSlug` are the two `generateUUID()` results, `now` the current time in
seconds, `enc`/`serialize` the external `encodeURIComponent` and jose compact
serialization.  Exceptions (body parse, `verifyPassword` throwing) are caught
by the handler's own try/catch, yielding its 500 response. -/
def login (pbkdf2 : String → List Nat → List Nat) (enc : String → String)
    (serialize : RefreshWire → String) (env : Env) (dbFetch dbUpdate : DB)
    (body : LoginBody) (newTokenId newTokenSlug : String) (now : Nat) :
    HttpResult × DB :=
  match body with
  | .malformedJson => (⟨500, .jsonError "Internal server error", none⟩, dbUpdate)
  | .parsed username? password? =>
    if falsyStr username? || falsyStr password? then
      (⟨400, .jsonError "Missing credentials", none⟩, dbUpdate)
    else
      match fetchUserByUsername dbFetch (username?.getD "") with
      | none => (⟨401, .jsonError "Unauthorized", none⟩, dbUpdate)
      | some user =>
        match verifyPassword pbkdf2 (password?.getD "") user.pass_hash with
        | .error _ => (⟨500, .jsonError "Internal server error", none⟩, dbUpdate)
        | .ok false => (⟨401, .jsonError "Unauthorized", none⟩, dbUpdate)
        | .ok true =>
          let updated := updateUserTokenFields dbUpdate user.id newTokenId newTokenSlug
          if !updated.1 then
            (⟨500, .jsonError "Internal server error", none⟩, updated.2)
          else
            let accessToken := createAccessToken user.storage_dir (getJwtSecret env) now
            let refreshToken := createRefreshToken newTokenId user.storage_dir newTokenSlug now
            let cookie := createCookie enc "refresh-tok" (serialize refreshToken)
              ⟨some "/api/tokens/refresh", some (7 * 60 * 60), true, true, some "Strict"⟩
            (⟨200, .jsonToken accessToken, some cookie⟩, updated.2)

/-- The `POST /api/tokens/refresh` handler (routes/tokens.ts).  `cookie?` is
the result of `getCookie(request, 'refresh-tok')` interpreted as a wire token
(`none` when the cookie is absent). -/
def refresh (env : Env) (db : DB) (cookie? : Option RefreshWire) (now : Nat) :
    HttpResult × DB :=
  match cookie? with
  | none => (⟨401, .jsonError "No refresh token", none⟩, db)
  | some w =>
    match w with
    | .malformedParts => (⟨401, .jsonError "Invalid token format", none⟩, db)
    | .malformedJson => (⟨401, .jsonError "Invalid token", none⟩, db)
    | .tok sub? _ _ _ =>
      if falsyStr sub? then (⟨401, .jsonError "Invalid token payload", none⟩, db)
      else
        let tokenSlug? := fetchTokenSlugByTokenId db (sub?.getD "")
        if falsyStr tokenSlug? then (⟨401, .jsonError "Token not found", none⟩, db)
        else
          match verifyRefreshToken w (tokenSlug?.getD "") now with
          | none => (⟨401, .jsonError "Invalid or expired token", none⟩, db)
          | some claims =>
            (⟨200, .jsonToken (createAccessToken claims.store (getJwtSecret env) now), none⟩, db)

example :
    (refresh ⟨none⟩ [] none 0).1 ≠ (refresh ⟨none⟩ [] (some .malformedParts) 0).1 := by
  decide

example :
    (refresh ⟨none⟩ [⟨1, "alice", "h", some "s1", some "t1", "store"⟩]
      (some (createRefreshToken "t1" "store" "s1" 0)) 3).1 =
    ⟨200, .jsonToken ⟨⟨"store", 3 + 300⟩, "gbajs3-default-secret-change-in-production"⟩, none⟩ := by
  decide

example :
    (login (fun _ _ => []) id (fun _ => "") ⟨none⟩ [] [] .malformedJson "t" "s" 0).1 =
    ⟨500, .jsonError "Internal server error", none⟩ := by decide

/-! ## Base64 round-trip lemmas -/

/-- The padding-free prefix of `b64EncodeB`. -/
def b64EncodeCore : List Nat → List Char
  | [] => []
  | [a] => [encodeSextet (a / 4), encodeSextet (a % 4 * 16)]
  | [a, b] => [encodeSextet (a / 4), encodeSextet (a % 4 * 16 + b / 16),
               encodeSextet (b % 16 * 4)]
  | a :: b :: c :: rest =>
    encodeSextet (a / 4) :: encodeSextet (a % 4 * 16 + b / 16) ::
    encodeSextet (b % 16 * 4 + c / 64) :: encodeSextet (c % 64) :: b64EncodeCore rest

/-- The `=` padding appended by `b64EncodeB`. -/
def b64Pad : List Nat → List Char
  | [] => []
  | [_] => ['=', '=']
  | [_, _] => ['=']
  | _ :: _ :: _ :: rest => b64Pad rest

theorem decEnc : ∀ n, n < 64 → decodeSextet (encodeSextet n) = some n := by decide

theorem b64Chars_facts :
    ∀ c ∈ b64Chars, isAsciiWS c = false ∧ c ≠ '=' ∧ c ≠ ':' ∧ c ≠ '$' := by decide

theorem encodeSextet_mem (n : Nat) : encodeSextet n ∈ b64Chars := by
  by_cases h : n < 64
  · exact (show ∀ m, m < 64 → encodeSextet m ∈ b64Chars by decide) n h
  · have hlen : b64Chars.length ≤ n := by
      have : b64Chars.length = 64 := by decide
      omega
    unfold encodeSextet
    rw [List.getD_eq_getElem?_getD, List.getElem?_eq_none hlen]
    decide

theorem b64EncodeCore_mem : ∀ (l : List Nat), ∀ c ∈ b64EncodeCore l, c ∈ b64Chars
  | [] => by simp [b64EncodeCore]
  | [a] => by simp [b64EncodeCore, encodeSextet_mem]
  | [a, b] => by simp [b64EncodeCore, encodeSextet_mem]
  | a :: b :: c :: rest => by
    have ih := b64EncodeCore_mem rest
    simp only [b64EncodeCore, List.mem_cons]
    intro x hx
    rcases hx with h | h | h | h | h
    all_goals first
      | (subst h; exact encodeSextet_mem _)
      | exact ih x h

theorem b64EncodeB_eq : ∀ l : List Nat, b64EncodeB l = b64EncodeCore l ++ b64Pad l
  | [] => rfl
  | [_] => rfl
  | [_, _] => rfl
  | a :: b :: c :: rest => by
    simp only [b64EncodeB, b64EncodeCore, b64Pad, b64EncodeB_eq rest, List.cons_append]

theorem b64Pad_shape : ∀ l : List Nat,
    b64Pad l = [] ∨ b64Pad l = ['='] ∨ b64Pad l = ['=', '=']
  | [] => Or.inl rfl
  | [_] => Or.inr (Or.inr rfl)
  | [_, _] => Or.inr (Or.inl rfl)
  | _ :: _ :: _ :: rest => b64Pad_shape rest

theorem b64EncodeB_len : ∀ l : List Nat, (b64EncodeB l).length % 4 = 0
  | [] => rfl
  | [_] => by simp [b64EncodeB]
  | [_, _] => by simp [b64EncodeB]
  | a :: b :: c :: rest => by
    have ih := b64EncodeB_len rest
    simp only [b64EncodeB, List.length_cons]
    omega

theorem dropTrailingEq2_append {xs p : List Char} (hx : ∀ c ∈ xs, c ≠ '=')
    (hp : p = [] ∨ p = ['='] ∨ p = ['=', '=']) :
    dropTrailingEq2 (xs ++ p) = xs := by
  have hrev₀ : ∀ (c : Char) (r : List Char), xs.reverse = c :: r → c ≠ '=' := by
    intro c r h
    apply hx
    have : c ∈ xs.reverse := by rw [h]; simp
    simpa using this
  rcases hp with hp | hp | hp <;> subst hp
  · rw [List.append_nil]
    unfold dropTrailingEq2
    rcases h : xs.reverse with _ | ⟨c1, r1⟩
    · rfl
    · have hc1 := hrev₀ c1 r1 h
      rcases r1 with _ | ⟨c2, r2⟩ <;> simp [hc1]
  · unfold dropTrailingEq2
    rcases h : xs.reverse with _ | ⟨c, r⟩
    · have hxs : xs = [] := by simpa using h
      subst hxs
      simp
    · have hc := hrev₀ c r h
      have hrev : (xs ++ ['=']).reverse = '=' :: c :: r := by
        simp [List.reverse_append, h]
      rw [hrev]
      simp [hc, ← h]
  · unfold dropTrailingEq2
    have hrev : (xs ++ ['=', '=']).reverse = '=' :: '=' :: xs.reverse := by
      simp [List.reverse_append]
    rw [hrev]
    simp

theorem b64DecodeB_encodeCore : ∀ l : List Nat, (∀ b ∈ l, b < 256) →
    b64DecodeB (b64EncodeCore l) = some l
  | [] => fun _ => rfl
  | [a] => fun h => by
    have ha : a < 256 := h a (by simp)
    simp only [b64EncodeCore, b64DecodeB]
    rw [decEnc _ (by omega), decEnc _ (by omega)]
    simp
    omega
  | [a, b] => fun h => by
    have ha : a < 256 := h a (by simp)
    have hb : b < 256 := h b (by simp)
    simp only [b64EncodeCore, b64DecodeB]
    rw [decEnc _ (by omega), decEnc _ (by omega), decEnc _ (by omega)]
    simp
    omega
  | a :: b :: c :: rest => fun h => by
    have ha : a < 256 := h a (by simp)
    have hb : b < 256 := h b (by simp)
    have hc : c < 256 := h c (by simp)
    have ih := b64DecodeB_encodeCore rest (fun x hx => h x (by simp [hx]))
    simp only [b64EncodeCore, b64DecodeB]
    rw [decEnc _ (by omega), decEnc _ (by omega), decEnc _ (by omega),
        decEnc _ (by omega), ih]
    simp
    omega

theorem atob_btoa (l : List Nat) (h : ∀ b ∈ l, b < 256) :
    atobL (b64EncodeB l) = some l := by
  have hmem : ∀ c ∈ b64EncodeB l, c ∈ b64Chars ∨ c = '=' := by
    intro c hc
    rw [b64EncodeB_eq] at hc
    rcases List.mem_append.mp hc with h1 | h1
    · exact Or.inl (b64EncodeCore_mem l c h1)
    · rcases b64Pad_shape l with hp | hp | hp <;> rw [hp] at h1 <;> simp at h1 <;>
        simp [h1]
  have hfilter : (b64EncodeB l).filter (fun c => !(isAsciiWS c)) = b64EncodeB l := by
    rw [List.filter_eq_self]
    intro c hc
    rcases hmem c hc with h1 | h1
    · simp [(b64Chars_facts c h1).1]
    · subst h1; decide
  unfold atobL
  simp only [hfilter, b64EncodeB_len l, if_pos]
  rw [b64EncodeB_eq]
  rw [dropTrailingEq2_append (fun c hc => ((b64Chars_facts c (b64EncodeCore_mem l c hc)).2).1)
      (b64Pad_shape l)]
  exact b64DecodeB_encodeCore l h

theorem b64EncodeB_mem (l : List Nat) : ∀ c ∈ b64EncodeB l, c ∈ b64Chars ∨ c = '=' := by
  intro c hc
  rw [b64EncodeB_eq] at hc
  rcases List.mem_append.mp hc with h1 | h1
  · exact Or.inl (b64EncodeCore_mem l c h1)
  · rcases b64Pad_shape l with hp | hp | hp <;> rw [hp] at h1 <;> simp at h1 <;>
      simp [h1]

theorem b64EncodeB_ne_colon (l : List Nat) : ∀ c ∈ b64EncodeB l, c ≠ ':' := by
  intro c hc
  rcases b64EncodeB_mem l c hc with h1 | h1
  · exact (b64Chars_facts c h1).2.2.1
  · subst h1; decide

theorem b64EncodeB_ne_nil : ∀ l : List Nat, l ≠ [] → b64EncodeB l ≠ []
  | [], h => absurd rfl h
  | [_], _ => by simp [b64EncodeB]
  | [_, _], _ => by simp [b64EncodeB]
  | _ :: _ :: _ :: _, _ => by simp [b64EncodeB]

theorem splitOnChar_no_sep {sep : Char} : ∀ {xs : List Char},
    (∀ c ∈ xs, c ≠ sep) → splitOnChar sep xs = [xs] := by
  intro xs
  induction xs with
  | nil => intro _; rfl
  | cons c r ih =>
    intro h
    have hc : c ≠ sep := h c (by simp)
    have := ih (fun x hx => h x (by simp [hx]))
    simp [splitOnChar, hc, this]

theorem splitOnChar_append {sep : Char} : ∀ (xs ys : List Char),
    (∀ c ∈ xs, c ≠ sep) →
    splitOnChar sep (xs ++ sep :: ys) = xs :: splitOnChar sep ys := by
  intro xs ys
  induction xs with
  | nil => intro _; simp [splitOnChar]
  | cons c r ih =>
    intro h
    have hc : c ≠ sep := h c (by simp)
    have := ih (fun x hx => h x (by simp [hx]))
    simp [splitOnChar, hc, this]

theorem xorFold_self_aux : ∀ (l : List Nat) (acc : Nat),
    (List.zip l l).foldl (fun acc p => acc ||| (p.1 ^^^ p.2)) acc = acc
  | [], _ => rfl
  | a :: r, acc => by
    simp only [List.zip_cons_cons, List.foldl_cons]
    rw [Nat.xor_self, Nat.or_zero]
    exact xorFold_self_aux r acc

theorem xorFold_self (l : List Nat) : xorFold l l = 0 := xorFold_self_aux l 0

/-- `verify(p, hash(p)) = true`: `verifyPassword` recovers the salt and digest
embedded by `hashPassword` and the re-derived digest matches. -/
theorem verifyPassword_hashPassword (pbkdf2 : String → List Nat → List Nat)
    (p : String) (salt : List Nat) (hsl : salt.length = 16)
    (hsb : ∀ b ∈ salt, b < 256) (hdl : (pbkdf2 p salt).length = 32)
    (hdb : ∀ b ∈ pbkdf2 p salt, b < 256) :
    verifyPassword pbkdf2 p (hashPassword pbkdf2 p salt) = .ok true := by
  have hdata : (hashPassword pbkdf2 p salt).data
      = b64EncodeB salt ++ ':' :: b64EncodeB (pbkdf2 p salt) := by
    simp [hashPassword, btoaB, String.data_append]
  have hsne : salt ≠ [] := by intro h; rw [h] at hsl; simp at hsl
  have hdne : pbkdf2 p salt ≠ [] := by intro h; rw [h] at hdl; simp at hdl
  have hsplit : splitOnChar ':' (hashPassword pbkdf2 p salt).data
      = [b64EncodeB salt, b64EncodeB (pbkdf2 p salt)] := by
    rw [hdata, splitOnChar_append _ _ (b64EncodeB_ne_colon salt),
        splitOnChar_no_sep (b64EncodeB_ne_colon _)]
  have hbc : startsBcrypt (hashPassword pbkdf2 p salt).data = false := by
    rw [hdata]
    rcases he : b64EncodeB salt with _ | ⟨c1, r1⟩
    · exact absurd he (b64EncodeB_ne_nil salt hsne)
    · have hc1 : c1 ∈ b64Chars ∨ c1 = '=' := by
        apply b64EncodeB_mem salt
        rw [he]; simp
      have : c1 ≠ '$' := by
        rcases hc1 with h1 | h1
        · exact (b64Chars_facts c1 h1).2.2.2
        · subst h1; decide
      rcases r1 with _ | ⟨c2, r2⟩ <;> simp [startsBcrypt, this]
  have hemp1 : (b64EncodeB salt).isEmpty = false := by
    rcases he : b64EncodeB salt with _ | ⟨c, r⟩
    · exact absurd he (b64EncodeB_ne_nil salt hsne)
    · rfl
  have hemp2 : (b64EncodeB (pbkdf2 p salt)).isEmpty = false := by
    rcases he : b64EncodeB (pbkdf2 p salt) with _ | ⟨c, r⟩
    · exact absurd he (b64EncodeB_ne_nil _ hdne)
    · rfl
  simp [verifyPassword, hbc, hsplit, hemp1, hemp2, atob_btoa salt hsb,
        atob_btoa (pbkdf2 p salt) hdb, xorFold_self]


/-! ## Claim theorems -/

/-- C1: (a) after a second login rotates a user's `tokenId`/`tokenSlug` slot,
a refresh token issued under the first slot fails the refresh flow with 401
(the slug lookup by its claimed `sub` finds nothing) even though its 7-hour
expiry has not passed; (b) at any database state, a wire refresh token is
accepted only when its claimed `sub` and signing key equal the
`tokenId`/`tokenSlug` pair currently stored on some user row — so at most the
single currently-stored slot per user validates refresh tokens. -/
theorem claim1_slot_rotation :
    (∀ (env : Env) (db : DB) (uid : Nat) (tid1 slug1 tid2 slug2 store : String)
        (now1 now3 : Nat),
        tid1 ≠ "" → tid1 ≠ tid2 →
        (∀ r ∈ db, r.token_id ≠ some tid1) →
        now3 < now1 + 7 * 60 * 60 →
        (refresh env
            (updateUserTokenFields
              (updateUserTokenFields db uid tid1 slug1).2 uid tid2 slug2).2
            (some (createRefreshToken tid1 store slug1 now1)) now3).1
          = ⟨401, .jsonError "Token not found", none⟩) ∧
    (∀ (env : Env) (db : DB) (sub store : String) (exp : Nat) (k : String) (now : Nat),
        (refresh env db (some (.tok (some sub) store exp (some k))) now).1.status = 200 →
        ∃ u ∈ db, u.token_id = some sub ∧ u.token_slug = some k) := by
  constructor
  · intro env db uid tid1 slug1 tid2 slug2 store now1 now3 h0 h12 hfresh _
    have hfetch : fetchTokenSlugByTokenId
        (updateUserTokenFields
          (updateUserTokenFields db uid tid1 slug1).2 uid tid2 slug2).2 tid1
        = none := by
      unfold fetchTokenSlugByTokenId
      have hnone : ((updateUserTokenFields
          (updateUserTokenFields db uid tid1 slug1).2 uid tid2 slug2).2).find?
          (fun u => u.token_id == some tid1) = none := by
        rw [List.find?_eq_none]
        intro x hx
        simp only [updateUserTokenFields] at hx
        rcases List.mem_map.mp hx with ⟨y, hy, hxy⟩
        rcases List.mem_map.mp hy with ⟨z, hz, hyz⟩
        subst hxy
        subst hyz
        by_cases hzid : (z.id == uid) = true
        · simp [hzid, Ne.symm h12]
        · simp only [Bool.not_eq_true] at hzid
          simp [hzid, hfresh z hz]
      simp [hnone]
    simp [refresh, createRefreshToken, falsyStr, h0, hfetch]
  · intro env db sub store exp k now hs
    simp only [refresh] at hs
    by_cases h0 : falsyStr (some sub) = true
    · rw [if_pos h0] at hs
      simp at hs
    · rw [if_neg h0] at hs
      simp only [Option.getD_some] at hs
      rcases hf : fetchTokenSlugByTokenId db sub with _ | slug
      · rw [hf] at hs
        simp [falsyStr] at hs
      · rw [hf] at hs
        by_cases hsl : falsyStr (some slug) = true
        · rw [if_pos hsl] at hs
          simp at hs
        · rw [if_neg hsl] at hs
          simp only [verifyRefreshToken, Option.getD_some] at hs
          by_cases hc : k = slug ∧ now < exp
          · rcases Option.bind_eq_some.mp hf with ⟨u, hu1, hu2⟩
            refine ⟨u, List.mem_of_find?_eq_some hu1, ?_, ?_⟩
            · have := List.find?_some hu1
              simpa using this
            · rw [hu2, hc.1]
          · rw [if_neg hc] at hs
            simp at hs

/-- C1 witness: a concrete user whose slot is rotated twice; the first refresh
token is rejected with `Token not found` before its expiry, and a concrete
accepted token matches the stored slot. -/
theorem claim1_witness :
    (refresh ⟨none⟩
        (updateUserTokenFields
          (updateUserTokenFields [⟨1, "alice", "h", none, none, "store"⟩] 1 "t1" "s1").2
          1 "t2" "s2").2
        (some (createRefreshToken "t1" "store" "s1" 0)) 10).1
      = ⟨401, .jsonError "Token not found", none⟩ ∧
    (∃ u ∈ ([⟨1, "a", "h", some "s1", some "t1", "st"⟩] : DB),
      u.token_id = some "t1" ∧ u.token_slug = some "s1") :=
  ⟨claim1_slot_rotation.1 ⟨none⟩ [⟨1, "alice", "h", none, none, "store"⟩] 1
     "t1" "s1" "t2" "s2" "store" 0 10 (by decide) (by decide) (by decide) (by decide),
   claim1_slot_rotation.2 ⟨none⟩ [⟨1, "a", "h", some "s1", some "t1", "st"⟩]
     "t1" "st" 100 "s1" 0 (by decide)⟩

/-- C7: (a) a successful refresh returns an access token whose `store` claim
equals the `store` claim carried in the presented refresh token itself; (b)
the refresh response depends on the database only through
`fetchTokenSlugByTokenId` — two stores agreeing on every slug lookup yield
identical responses, so no other field (in particular not the storage
partition) is read. -/
theorem claim7_refresh_store :
    (∀ (env : Env) (db : DB) (sub? : Option String) (store : String) (exp : Nat)
        (sig? : Option String) (now : Nat),
        (refresh env db (some (.tok sub? store exp sig?)) now).1.status = 200 →
        (refresh env db (some (.tok sub? store exp sig?)) now).1.body
          = .jsonToken (createAccessToken store (getJwtSecret env) now)) ∧
    (∀ (env : Env) (db db2 : DB) (cookie? : Option RefreshWire) (now : Nat),
        (∀ tid, fetchTokenSlugByTokenId db tid = fetchTokenSlugByTokenId db2 tid) →
        (refresh env db cookie? now).1 = (refresh env db2 cookie? now).1) := by
  constructor
  · intro env db sub? store exp sig? now hs
    simp only [refresh] at hs ⊢
    by_cases h0 : falsyStr sub? = true
    · rw [if_pos h0] at hs
      simp at hs
    · rw [if_neg h0] at hs
      rw [if_neg h0]
      rcases hf : fetchTokenSlugByTokenId db (sub?.getD "") with _ | slug
      · rw [hf] at hs
        simp [falsyStr] at hs
      · rw [hf] at hs
        by_cases hsl : falsyStr (some slug) = true
        · rw [if_pos hsl] at hs
          simp at hs
        · rw [if_neg hsl] at hs
          rw [if_neg hsl]
          rcases sig? with _ | k
          · simp [verifyRefreshToken] at hs
          · simp only [verifyRefreshToken, Option.getD_some] at hs ⊢
            by_cases hc : k = slug ∧ now < exp
            · rw [if_pos hc] at hs ⊢
            · rw [if_neg hc] at hs
              simp at hs
  · intro env db db2 cookie? now h
    rcases cookie? with _ | w
    · rfl
    · rcases w with _ | _ | ⟨sub?, store, exp, sig?⟩
      · rfl
      · rfl
      · simp only [refresh]
        by_cases hb : falsyStr sub? = true
        · rw [if_pos hb, if_pos hb]
        · rw [if_neg hb, if_neg hb, h (sub?.getD "")]
          by_cases hb2 : falsyStr (fetchTokenSlugByTokenId db2 (sub?.getD "")) = true
          · rw [if_pos hb2, if_pos hb2]
          · rw [if_neg hb2, if_neg hb2]
            rcases hv : verifyRefreshToken (.tok sub? store exp sig?)
                ((fetchTokenSlugByTokenId db2 (sub?.getD "")).getD "") now with _ | claims
            · rfl
            · rfl

/-- C7 witness: a concrete successful refresh whose minted access token
carries the wire token's `store` claim, and the read-frame property applied
at a concrete store pair. -/
theorem claim7_witness :
    ((refresh ⟨none⟩ [⟨1, "a", "h", some "s1", some "t1", "st"⟩]
        (some (.tok (some "t1") "st" 100 (some "s1"))) 0).1.status = 200 ∧
     (refresh ⟨none⟩ [⟨1, "a", "h", some "s1", some "t1", "st"⟩]
        (some (.tok (some "t1") "st" 100 (some "s1"))) 0).1.body
        = .jsonToken (createAccessToken "st" (getJwtSecret ⟨none⟩) 0)) ∧
    (refresh ⟨none⟩ [] (some .malformedParts) 5).1
      = (refresh ⟨none⟩ [] (some .malformedParts) 5).1 :=
  ⟨⟨by decide,
    claim7_refresh_store.1 ⟨none⟩ [⟨1, "a", "h", some "s1", some "t1", "st"⟩]
      (some "t1") "st" 100 (some "s1") 0 (by decide)⟩,
   claim7_refresh_store.2 ⟨none⟩ [] [] (some .malformedParts) 5 (fun _ => rfl)⟩

/-- C3 counterexample: for the malformed stored hash `"!!:!!"` (both fields
present but neither decodable base64), `verifyPassword` models `atob` throwing
`InvalidCharacterError` with an exception escaping the caller — it does not
return false. -/
theorem claim3_counterexample :
    verifyPassword (fun _ _ => []) "p" "!!:!!" = .error () ∧
    (Except.error () : Except Unit Bool) ≠ .ok false :=
  ⟨rfl, fun h => Except.noConfusion h⟩

/-- C3 (amended): `verifyPassword` returns false (without throwing) when the
second `:`-separated field is missing or either of the first two fields is
empty (fields past the second are ignored); but when both fields are present
and nonempty and either is not decodable base64, it throws (the `atob`
exception escapes `verifyPassword` to its caller). -/
theorem claim3_amended :
    (∀ (pbkdf2 : String → List Nat → List Nat) (p s : String),
        (splitOnChar ':' s.data)[1]? = none →
        verifyPassword pbkdf2 p s = .ok false) ∧
    (∀ (pbkdf2 : String → List Nat → List Nat) (p s : String)
        (saltB64 hashB64 : List Char),
        (splitOnChar ':' s.data)[0]? = some saltB64 →
        (splitOnChar ':' s.data)[1]? = some hashB64 →
        (saltB64.isEmpty || hashB64.isEmpty) = true →
        verifyPassword pbkdf2 p s = .ok false) ∧
    (∀ (pbkdf2 : String → List Nat → List Nat) (p s : String)
        (saltB64 hashB64 : List Char),
        startsBcrypt s.data = false →
        (splitOnChar ':' s.data)[0]? = some saltB64 →
        (splitOnChar ':' s.data)[1]? = some hashB64 →
        (saltB64.isEmpty || hashB64.isEmpty) = false →
        (atobL saltB64 = none ∨ atobL hashB64 = none) →
        verifyPassword pbkdf2 p s = .error ()) := by
  refine ⟨?_, ?_, ?_⟩
  · intro pbkdf2 p s h1
    by_cases hbc : startsBcrypt s.data = true
    · simp [verifyPassword, hbc]
    · rcases h0 : (splitOnChar ':' s.data)[0]? with _ | saltB64 <;>
        simp [verifyPassword, hbc, h0, h1]
  · intro pbkdf2 p s saltB64 hashB64 h0 h1 hemp
    by_cases hbc : startsBcrypt s.data = true
    · simp [verifyPassword, hbc]
    · simp [verifyPassword, hbc, h0, h1, hemp]
  · intro pbkdf2 p s saltB64 hashB64 hbc h0 h1 hemp hdec
    rcases hdec with hdec | hdec
    · simp [verifyPassword, hbc, h0, h1, hemp, hdec]
    · rcases hA : atobL saltB64 with _ | salt <;>
        simp [verifyPassword, hbc, h0, h1, hemp, hdec, hA]

/-- C3 witness: concrete inputs for the three amended branches — a hash with
no second field, a hash with an empty first field, and a hash whose fields do
not decode as base64. -/
theorem claim3_witness :
    ((splitOnChar ':' "abc".data)[1]? = none ∧
      verifyPassword (fun _ _ => []) "p" "abc" = .ok false) ∧
    ((([] : List Char).isEmpty || (['x'] : List Char).isEmpty) = true ∧
      verifyPassword (fun _ _ => []) "p" ":x" = .ok false) ∧
    (atobL ['!', '!'] = none ∧
      verifyPassword (fun _ _ => []) "p" "!!:!!" = .error ()) :=
  ⟨⟨by decide, claim3_amended.1 (fun _ _ => []) "p" "abc" (by decide)⟩,
   ⟨by decide,
    claim3_amended.2.1 (fun _ _ => []) "p" ":x" [] ['x']
      (by decide) (by decide) (by decide)⟩,
   ⟨by decide,
    claim3_amended.2.2 (fun _ _ => []) "p" "!!:!!" ['!', '!'] ['!', '!']
      (by decide) (by decide) (by decide) (by decide) (Or.inl (by decide))⟩⟩

/-- C4: for every password, verifying it against the stored hash produced by
`hashPassword` returns true — `verifyPassword` recovers the embedded salt,
re-derives the digest with the same key-derivation function, and the
constant-time comparison succeeds.  The hypotheses record the external
guarantees of `crypto.getRandomValues(new Uint8Array(16))` (sixteen bytes)
and of 256-bit PBKDF2 output (thirty-two bytes). -/
theorem claim4_verify_hash (pbkdf2 : String → List Nat → List Nat) (p : String)
    (salt : List Nat) (hsl : salt.length = 16) (hsb : ∀ b ∈ salt, b < 256)
    (hdl : (pbkdf2 p salt).length = 32) (hdb : ∀ b ∈ pbkdf2 p salt, b < 256) :
    verifyPassword pbkdf2 p (hashPassword pbkdf2 p salt) = .ok true :=
  verifyPassword_hashPassword pbkdf2 p salt hsl hsb hdl hdb

/-- C4 witness at a concrete key-derivation function and salt. -/
theorem claim4_witness :
    ((List.range 16).length = 16 ∧ (∀ b ∈ List.range 16, b < 256) ∧
      (List.range 32).length = 32 ∧ (∀ b ∈ List.range 32, b < 256)) ∧
    verifyPassword (fun _ _ => List.range 32) "pw"
      (hashPassword (fun _ _ => List.range 32) "pw" (List.range 16)) = .ok true :=
  ⟨⟨by decide, by decide, by decide, by decide⟩,
   claim4_verify_hash (fun _ _ => List.range 32) "pw" (List.range 16)
     (by decide) (by decide) (by decide) (by decide)⟩

/-- C2 counterexample: two refresh requests failing for different sub-reasons
(missing cookie vs. malformed token structure) both yield status 401 but the
response bodies differ, so the responses are not identical as the claim
states. -/
theorem claim2_counterexample :
    (refresh ⟨none⟩ [] none 0).1.status = 401 ∧
    (refresh ⟨none⟩ [] (some .malformedParts) 0).1.status = 401 ∧
    (refresh ⟨none⟩ [] none 0).1 ≠ (refresh ⟨none⟩ [] (some .malformedParts) 0).1 := by
  refine ⟨rfl, rfl, ?_⟩
  decide

/-- C2 (amended): every refresh response has status 200 or status 401 — the
status is uniform across all failure sub-reasons, though the JSON error bodies
differ per sub-reason. -/
theorem claim2_amended (env : Env) (db : DB) (cookie? : Option RefreshWire) (now : Nat) :
    (refresh env db cookie? now).1.status = 200 ∨
    (refresh env db cookie? now).1.status = 401 := by
  unfold refresh
  rcases cookie? with _ | w
  · simp
  · rcases w with _ | _ | ⟨sub?, store, exp, sig?⟩
    · simp
    · simp
    · dsimp only
      split
      · simp
      · split
        · simp
        · split <;> simp

/-- C5: a login with correct credentials whose persistence write succeeds
returns 200 with an access token whose `store` claim equals the user's
storage partition, and a `Set-Cookie` header that is the `"; "`-join of the
refresh-token pair with exactly the attributes `Path=/api/tokens/refresh`,
`Max-Age=25200`, `HttpOnly`, `Secure`, `SameSite=Strict`, in that order. -/
theorem claim5_login_success (pbkdf2 : String → List Nat → List Nat)
    (enc : String → String) (serialize : RefreshWire → String) (env : Env)
    (dbFetch dbUpdate : DB) (u p : String) (user : UserRow) (tid slug : String)
    (now : Nat) (hu : u ≠ "") (hp : p ≠ "")
    (hfetch : fetchUserByUsername dbFetch u = some user)
    (hverify : verifyPassword pbkdf2 p user.pass_hash = .ok true)
    (hupd : (updateUserTokenFields dbUpdate user.id tid slug).1 = true) :
    (login pbkdf2 enc serialize env dbFetch dbUpdate (.parsed (some u) (some p))
        tid slug now).1
      = ⟨200, .jsonToken (createAccessToken user.storage_dir (getJwtSecret env) now),
          some (joinParts "; "
            (("refresh-tok=" ++ enc (serialize (createRefreshToken tid user.storage_dir slug now)))
              :: ["Path=/api/tokens/refresh", "Max-Age=25200", "HttpOnly",
                  "Secure", "SameSite=Strict"]))⟩
    ∧ (createAccessToken user.storage_dir (getJwtSecret env) now).claims.store
        = user.storage_dir := by
  have e1 : ("refresh-tok" ++ "=" : String) = "refresh-tok=" := by decide
  have e2 : ("Max-Age=" ++ toString (25200 : Int) : String) = "Max-Age=25200" := by
    decide
  constructor
  · simp [login, falsyStr, hu, hp, hfetch, hverify, hupd, createCookie, e1, e2]
  · rfl

/-- C5 witness at a concrete database, user and key-derivation function. -/
theorem claim5_witness :
    ("alice" ≠ "" ∧ "pw" ≠ "" ∧
      fetchUserByUsername [⟨1, "alice", "AA==:AA==", none, none, "part"⟩] "alice"
        = some ⟨1, "alice", "AA==:AA==", none, none, "part"⟩ ∧
      verifyPassword (fun _ _ => [0]) "pw" "AA==:AA==" = .ok true ∧
      (updateUserTokenFields [⟨1, "alice", "AA==:AA==", none, none, "part"⟩] 1 "t" "s").1
        = true) ∧
    ((login (fun _ _ => [0]) id (fun _ => "rt") ⟨none⟩
        [⟨1, "alice", "AA==:AA==", none, none, "part"⟩]
        [⟨1, "alice", "AA==:AA==", none, none, "part"⟩]
        (.parsed (some "alice") (some "pw")) "t" "s" 0).1
      = ⟨200, .jsonToken (createAccessToken "part" (getJwtSecret ⟨none⟩) 0),
          some (joinParts "; " (("refresh-tok=" ++ id "rt")
            :: ["Path=/api/tokens/refresh", "Max-Age=25200", "HttpOnly",
                "Secure", "SameSite=Strict"]))⟩
      ∧ (createAccessToken "part" (getJwtSecret ⟨none⟩) 0).claims.store = "part") :=
  ⟨⟨by decide, by decide, by decide, rfl, by decide⟩,
   claim5_login_success (fun _ _ => [0]) id (fun _ => "rt") ⟨none⟩
     [⟨1, "alice", "AA==:AA==", none, none, "part"⟩]
     [⟨1, "alice", "AA==:AA==", none, none, "part"⟩] "alice" "pw"
     ⟨1, "alice", "AA==:AA==", none, none, "part"⟩ "t" "s" 0
     (by decide) (by decide) (by decide) rfl (by decide)⟩

/-- C6: when the token-field update reports zero rows affected, login returns
the 500 internal-error response with no token in the body and no `Set-Cookie`
header: token issuance is all-or-nothing relative to the persistence write. -/
theorem claim6_update_failure (pbkdf2 : String → List Nat → List Nat)
    (enc : String → String) (serialize : RefreshWire → String) (env : Env)
    (dbFetch dbUpdate : DB) (u p : String) (user : UserRow) (tid slug : String)
    (now : Nat) (hu : u ≠ "") (hp : p ≠ "")
    (hfetch : fetchUserByUsername dbFetch u = some user)
    (hverify : verifyPassword pbkdf2 p user.pass_hash = .ok true)
    (hupd : (updateUserTokenFields dbUpdate user.id tid slug).1 = false) :
    (login pbkdf2 enc serialize env dbFetch dbUpdate (.parsed (some u) (some p))
        tid slug now).1
      = ⟨500, .jsonError "Internal server error", none⟩ := by
  simp [login, falsyStr, hu, hp, hfetch, hverify, hupd]

/-- C6 witness: the user row exists at fetch time but is gone at update time
(zero rows affected), and the login yields 500 with no tokens. -/
theorem claim6_witness :
    ("alice" ≠ "" ∧ "pw" ≠ "" ∧
      fetchUserByUsername [⟨1, "alice", "AA==:AA==", none, none, "part"⟩] "alice"
        = some ⟨1, "alice", "AA==:AA==", none, none, "part"⟩ ∧
      verifyPassword (fun _ _ => [0]) "pw" "AA==:AA==" = .ok true ∧
      (updateUserTokenFields [] 1 "t" "s").1 = false) ∧
    (login (fun _ _ => [0]) id (fun _ => "rt") ⟨none⟩
        [⟨1, "alice", "AA==:AA==", none, none, "part"⟩] []
        (.parsed (some "alice") (some "pw")) "t" "s" 0).1
      = ⟨500, .jsonError "Internal server error", none⟩ :=
  ⟨⟨by decide, by decide, by decide, rfl, by decide⟩,
   claim6_update_failure (fun _ _ => [0]) id (fun _ => "rt") ⟨none⟩
     [⟨1, "alice", "AA==:AA==", none, none, "part"⟩] [] "alice" "pw"
     ⟨1, "alice", "AA==:AA==", none, none, "part"⟩ "t" "s" 0
     (by decide) (by decide) (by decide) rfl (by decide)⟩

/-- C8: every refresh request, successful or not, leaves the credential store
unchanged and sets no cookie (so no refresh token is issued and no stored
expiry is extended). -/
theorem claim8_refresh_frame (env : Env) (db : DB) (cookie? : Option RefreshWire)
    (now : Nat) :
    (refresh env db cookie? now).2 = db ∧
    (refresh env db cookie? now).1.setCookie = none := by
  unfold refresh
  rcases cookie? with _ | w
  · exact ⟨rfl, rfl⟩
  · rcases w with _ | _ | ⟨sub?, store, exp, sig?⟩
    · exact ⟨rfl, rfl⟩
    · exact ⟨rfl, rfl⟩
    · dsimp only
      split
      · exact ⟨rfl, rfl⟩
      · split
        · exact ⟨rfl, rfl⟩
        · split <;> exact ⟨rfl, rfl⟩

/-- C9: with no `JWT_SECRET` configured, `getJwtSecret` returns the fixed
hardcoded constant (it never fails), so every access token minted in such an
environment is signed under that known constant key. -/
theorem claim9_default_secret (env : Env) (h : env.jwtSecret = none) :
    getJwtSecret env = "gbajs3-default-secret-change-in-production" ∧
    ∀ (storageDir : String) (now : Nat),
      (createAccessToken storageDir (getJwtSecret env) now).key
        = "gbajs3-default-secret-change-in-production" := by
  have hg : getJwtSecret env = "gbajs3-default-secret-change-in-production" := by
    simp [getJwtSecret, h]
  exact ⟨hg, fun s n => by simp [createAccessToken, hg]⟩

/-- C9 witness at the environment with no configured secret. -/
theorem claim9_witness :
    getJwtSecret ⟨none⟩ = "gbajs3-default-secret-change-in-production" ∧
    ∀ (storageDir : String) (now : Nat),
      (createAccessToken storageDir (getJwtSecret ⟨none⟩) now).key
        = "gbajs3-default-secret-change-in-production" :=
  claim9_default_secret ⟨none⟩ rfl

/-- C10 counterexample: a login whose body fails to parse as JSON yields 500,
but the response is not the app-level catch-all response (the failure is
caught by the login handler's own try/catch, whose body casing differs), so
the parse failure does not propagate to the catch-all handler. -/
theorem claim10_counterexample :
    (login (fun _ _ => []) id (fun _ => "") ⟨none⟩ [] [] .malformedJson "t" "s" 0).1.status
      = 500 ∧
    (login (fun _ _ => []) id (fun _ => "") ⟨none⟩ [] [] .malformedJson "t" "s" 0).1
      ≠ onErrorResponse := by
  refine ⟨rfl, ?_⟩
  decide

/-- C10 (amended): a login request with a syntactically invalid JSON body is
answered by the handler's own catch with status 500 and body
`{error: 'Internal server error'}` — not with the 400 used for
present-but-missing credential fields. -/
theorem claim10_amended (pbkdf2 : String → List Nat → List Nat)
    (enc : String → String) (serialize : RefreshWire → String) (env : Env)
    (dbFetch dbUpdate : DB) (tid slug : String) (now : Nat) :
    (login pbkdf2 enc serialize env dbFetch dbUpdate .malformedJson tid slug now).1
      = ⟨500, .jsonError "Internal server error", none⟩ ∧
    (login pbkdf2 enc serialize env dbFetch dbUpdate .malformedJson tid slug now).1.status
      ≠ 400 :=
  ⟨rfl, by simp [login]⟩

end Gbajs3
